import Mathlib

/-!
# Verification of the `lm-sensors` crate against its specification

This file contains a shallow embedding, in Lean 4, of the parts of the
`lm-sensors` Rust crate (a safe binding to the LM sensors backend library)
that its natural-language specification talks about, together with theorems
settling the specification's claims.

Modelling conventions:

* Rust `f64` values are modelled by the type `F64` below: NaN, signed
  infinities, and finite values carried as exact rationals.  Every finite
  IEEE-754 double is an exact rational, and the only operations the embedded
  code performs on doubles are equality with `0.0`, sign and NaN/infinity
  tests, and rounding to the nearest integer (half away from zero), all of
  which are exact on rationals; so this model is faithful for the embedded
  operations — with one exception: the `i64` conversion
  `to_int_unchecked` that `TemperatureSensorKind::from_raw` applies to the
  rounded double is undefined behaviour in the source when the rounded
  value does not fit in `i64`.  The embedding keeps the unbounded
  mathematical value and marks the defined region with the predicate
  `roundFitsI64`; every theorem that depends on the numeric result of the
  conversion is restricted to that region.
* C strings reached through FFI pointers are modelled by `Option CBytes`:
  `none` is a null pointer, and `CBytes` carries either valid-UTF-8 contents
  or invalid-UTF-8 contents together with their lossy (U+FFFD-replacement)
  decoding, which is all the embedded code ever extracts from them.
* Machine integers (`c_int`, `c_short`, ...) are modelled as `Int`; none of
  the embedded operations can overflow them on the inputs the theorems use.
* Process-global mutable state of the crate (`INITIALIZED`, `ERROR_LISTENER`,
  and the three backend callback function-pointer slots) is modelled as an
  explicit `GlobalState` record threaded through the embedded functions.
  Calls into the backend (`sensors_init`, `sensors_get_label`, ...) are
  modelled by passing the backend's reply in as an argument.  The process
  mutex `api_access_lock()` serialises these functions in Rust; the embedding
  models the executions in which the lock is acquired (not poisoned).
-/

namespace LmSensors

/-- Model of a Rust `f64`: NaN, an infinity with its sign bit
(`inf true` is `+∞`), or a finite value as an exact rational. -/
inductive F64 where
  | nan : F64
  | inf : Bool → F64
  | fin : ℚ → F64
deriving DecidableEq

/-- IEEE-754 equality test (`==` on Rust `f64`): NaN is equal to nothing,
infinities compare by sign, finite values compare as rationals.
(`-0.0` and `+0.0` are both modelled as `fin 0`, which is consistent with
IEEE equality.) -/
def F64.beq : F64 → F64 → Bool
  | .fin a, .fin b => a == b
  | .inf a, .inf b => a == b
  | _, _ => false

/-- IEEE-754 disequality (`!=` on Rust `f64`), used by `Value::new` as
`value != 0.0_f64`. -/
def F64.ne (a b : F64) : Bool := !(F64.beq a b)

/-- `f64::is_nan`. -/
def F64.isNan : F64 → Bool
  | .nan => true
  | _ => false

/-- `f64::is_infinite`. -/
def F64.isInfinite : F64 → Bool
  | .inf _ => true
  | _ => false

/-- `f64::is_sign_positive` (only applied to infinities in the embedded
code). -/
def F64.isSignPositive : F64 → Bool
  | .inf b => b
  | .nan => true
  | .fin q => 0 ≤ q

/-- Rust `f64::round`: nearest integer, ties rounded away from zero,
expressed exactly on rationals. -/
def roundAway (q : ℚ) : ℤ :=
  if 0 ≤ q then ⌊q + 1 / 2⌋ else ⌈q - 1 / 2⌉

/-- `value.round().to_int_unchecked::<i64>()` from
`TemperatureSensorKind::from_raw`, on a finite double.  The source
conversion is defined only when the rounded value fits in `i64`
(`to_int_unchecked` is undefined behaviour otherwise — the code's safety
comment only establishes finiteness).  The model carries the unbounded
mathematical rounding; `roundFitsI64` below delimits the region where it
is faithful, and every theorem that depends on this numeric result
assumes it. -/
def F64.roundToInt : F64 → ℤ
  | .fin q => roundAway q
  | _ => 0

/-- The precondition of the `to_int_unchecked::<i64>` conversion at
src/value.rs line 1239: the rounded value fits in `i64`.  For finite
inputs outside this range the source's behaviour is undefined, so no
theorem asserts what `from_raw` returns there.  (NaN and infinite inputs
never reach the conversion.) -/
def roundFitsI64 (q : ℚ) : Prop :=
  -(2 ^ 63) ≤ roundAway q ∧ roundAway q ≤ 2 ^ 63 - 1

/-- `value::TemperatureSensorKind` (src/value.rs): type of a temperature
sensor, with C discriminants 0–6. -/
inductive TemperatureSensorKind where
  | Disabled
  | CPUDiode
  | Transistor
  | ThermalDiode
  | Thermistor
  | AMDAMDSI
  | IntelPECI
deriving DecidableEq

/-- `TemperatureSensorKind::as_raw` via `num_enum::IntoPrimitive`: the C
discriminant of the variant. -/
def TemperatureSensorKind.asRaw : TemperatureSensorKind → ℤ
  | .Disabled => 0
  | .CPUDiode => 1
  | .Transistor => 2
  | .ThermalDiode => 3
  | .Thermistor => 4
  | .AMDAMDSI => 5
  | .IntelPECI => 6

/-- `TemperatureSensorKind::try_from(c_int)` via `num_enum::TryFromPrimitive`:
the variant with the given discriminant, if any. -/
def TemperatureSensorKind.tryFrom (i : ℤ) : Option TemperatureSensorKind :=
  if i = 0 then some .Disabled
  else if i = 1 then some .CPUDiode
  else if i = 2 then some .Transistor
  else if i = 3 then some .ThermalDiode
  else if i = 4 then some .Thermistor
  else if i = 5 then some .AMDAMDSI
  else if i = 6 then some .IntelPECI
  else none

/-- `TemperatureSensorKind::from_raw` (src/value.rs lines 1228-1248):
NaN is rejected; infinities map to `Thermistor` when positive and are
rejected when negative; a finite value is rounded (ties away from zero),
negative results are rejected, results above 1000 map to `Thermistor`, and
results in `[0, 1000]` go through `try_from`. -/
def TemperatureSensorKind.fromRaw (value : F64) : Option TemperatureSensorKind :=
  if value.isNan then none
  else if value.isInfinite then
    if value.isSignPositive then some .Thermistor else none
  else
    let intValue : ℤ := value.roundToInt
    if intValue < 0 then none
    else if intValue > 1000 then some .Thermistor
    else TemperatureSensorKind.tryFrom intValue

/-- `value::Kind` (src/value.rs lines 838-936): the 87 sub-feature value
kinds, in source order.  (The C discriminants `SENSORS_SUBFEATURE_*` are
not needed by the claims and are omitted.) -/
inductive Kind where
  | VoltageInput
  | VoltageMinimum
  | VoltageMaximum
  | VoltageLCritical
  | VoltageCritical
  | VoltageAverage
  | VoltageLowest
  | VoltageHighest
  | VoltageAlarm
  | VoltageMinimumAlarm
  | VoltageMaximumAlarm
  | VoltageBeep
  | VoltageLCriticalAlarm
  | VoltageCriticalAlarm
  | FanInput
  | FanMinimum
  | FanMaximum
  | FanAlarm
  | FanFault
  | FanDivisor
  | FanBeep
  | FanPulses
  | FanMinimumAlarm
  | FanMaximumAlarm
  | TemperatureInput
  | TemperatureMaximum
  | TemperatureMaximumHysteresis
  | TemperatureMinimum
  | TemperatureCritical
  | TemperatureCriticalHysteresis
  | TemperatureLCritical
  | TemperatureEmergency
  | TemperatureEmergencyHysteresis
  | TemperatureLowest
  | TemperatureHighest
  | TemperatureMinimumHysteresis
  | TemperatureLCriticalHysteresis
  | TemperatureAlarm
  | TemperatureMaximumAlarm
  | TemperatureMinimumAlarm
  | TemperatureCriticalAlarm
  | TemperatureFault
  | TemperatureType
  | TemperatureOffset
  | TemperatureBeep
  | TemperatureEmergencyAlarm
  | TemperatureLCriticalAlarm
  | PowerAverage
  | PowerAverageHighest
  | PowerAverageLowest
  | PowerInput
  | PowerInputHighest
  | PowerInputLowest
  | PowerCap
  | PowerCapHysteresis
  | PowerMaximum
  | PowerCritical
  | PowerMinimum
  | PowerLCritical
  | PowerAverageInterval
  | PowerAlarm
  | PowerCapAlarm
  | PowerMaximumAlarm
  | PowerCriticalAlarm
  | PowerMinimumAlarm
  | PowerLCriticalAlarm
  | EnergyInput
  | CurrentInput
  | CurrentMinimum
  | CurrentMaximum
  | CurrentLCritical
  | CurrentCritical
  | CurrentAverage
  | CurrentLowest
  | CurrentHighest
  | CurrentAlarm
  | CurrentMinimumAlarm
  | CurrentMaximumAlarm
  | CurrentBeep
  | CurrentLCriticalAlarm
  | CurrentCriticalAlarm
  | HumidityInput
  | VoltageID
  | IntrusionAlarm
  | IntrusionBeep
  | BeepEnable
  | Unknown
deriving DecidableEq

/-- `Value` (src/value.rs lines 19-117): value reported by a sensor or set
for an actuator.  Alarm/beep/fault variants carry `Bool`, `TemperatureType`
carries a `TemperatureSensorKind`, `Unknown` carries the kind code and the
raw double, and every other variant carries the double. -/
inductive Value where
  | VoltageInput : F64 → Value
  | VoltageMinimum : F64 → Value
  | VoltageMaximum : F64 → Value
  | VoltageLCritical : F64 → Value
  | VoltageCritical : F64 → Value
  | VoltageAverage : F64 → Value
  | VoltageLowest : F64 → Value
  | VoltageHighest : F64 → Value
  | VoltageAlarm : Bool → Value
  | VoltageMinimumAlarm : Bool → Value
  | VoltageMaximumAlarm : Bool → Value
  | VoltageBeep : Bool → Value
  | VoltageLCriticalAlarm : Bool → Value
  | VoltageCriticalAlarm : Bool → Value
  | FanInput : F64 → Value
  | FanMinimum : F64 → Value
  | FanMaximum : F64 → Value
  | FanAlarm : Bool → Value
  | FanFault : Bool → Value
  | FanDivisor : F64 → Value
  | FanBeep : Bool → Value
  | FanPulses : F64 → Value
  | FanMinimumAlarm : Bool → Value
  | FanMaximumAlarm : Bool → Value
  | TemperatureInput : F64 → Value
  | TemperatureMaximum : F64 → Value
  | TemperatureMaximumHysteresis : F64 → Value
  | TemperatureMinimum : F64 → Value
  | TemperatureCritical : F64 → Value
  | TemperatureCriticalHysteresis : F64 → Value
  | TemperatureLCritical : F64 → Value
  | TemperatureEmergency : F64 → Value
  | TemperatureEmergencyHysteresis : F64 → Value
  | TemperatureLowest : F64 → Value
  | TemperatureHighest : F64 → Value
  | TemperatureMinimumHysteresis : F64 → Value
  | TemperatureLCriticalHysteresis : F64 → Value
  | TemperatureAlarm : Bool → Value
  | TemperatureMaximumAlarm : Bool → Value
  | TemperatureMinimumAlarm : Bool → Value
  | TemperatureCriticalAlarm : Bool → Value
  | TemperatureFault : Bool → Value
  | TemperatureType : TemperatureSensorKind → Value
  | TemperatureOffset : F64 → Value
  | TemperatureBeep : Bool → Value
  | TemperatureEmergencyAlarm : Bool → Value
  | TemperatureLCriticalAlarm : Bool → Value
  | PowerAverage : F64 → Value
  | PowerAverageHighest : F64 → Value
  | PowerAverageLowest : F64 → Value
  | PowerInput : F64 → Value
  | PowerInputHighest : F64 → Value
  | PowerInputLowest : F64 → Value
  | PowerCap : F64 → Value
  | PowerCapHysteresis : F64 → Value
  | PowerMaximum : F64 → Value
  | PowerCritical : F64 → Value
  | PowerMinimum : F64 → Value
  | PowerLCritical : F64 → Value
  | PowerAverageInterval : F64 → Value
  | PowerAlarm : Bool → Value
  | PowerCapAlarm : Bool → Value
  | PowerMaximumAlarm : Bool → Value
  | PowerCriticalAlarm : Bool → Value
  | PowerMinimumAlarm : Bool → Value
  | PowerLCriticalAlarm : Bool → Value
  | EnergyInput : F64 → Value
  | CurrentInput : F64 → Value
  | CurrentMinimum : F64 → Value
  | CurrentMaximum : F64 → Value
  | CurrentLCritical : F64 → Value
  | CurrentCritical : F64 → Value
  | CurrentAverage : F64 → Value
  | CurrentLowest : F64 → Value
  | CurrentHighest : F64 → Value
  | CurrentAlarm : Bool → Value
  | CurrentMinimumAlarm : Bool → Value
  | CurrentMaximumAlarm : Bool → Value
  | CurrentBeep : Bool → Value
  | CurrentLCriticalAlarm : Bool → Value
  | CurrentCriticalAlarm : Bool → Value
  | HumidityInput : F64 → Value
  | VoltageID : F64 → Value
  | IntrusionAlarm : Bool → Value
  | IntrusionBeep : Bool → Value
  | BeepEnable : Bool → Value
  | Unknown : Kind → F64 → Value

/-- `Value::new` (src/value.rs lines 124-228).  Alarm/beep/fault kinds store
`value != 0.0`; `TemperatureType` goes through
`TemperatureSensorKind::from_raw` whose `None` aborts the construction (the
`?` operator); every other kind stores the double unchanged (`Unknown` keeps
the kind code as well). -/
def Value.new (kind : Kind) (value : F64) : Option Value :=
  match kind with
  | .VoltageInput => some (.VoltageInput value)
  | .VoltageMinimum => some (.VoltageMinimum value)
  | .VoltageMaximum => some (.VoltageMaximum value)
  | .VoltageLCritical => some (.VoltageLCritical value)
  | .VoltageCritical => some (.VoltageCritical value)
  | .VoltageAverage => some (.VoltageAverage value)
  | .VoltageLowest => some (.VoltageLowest value)
  | .VoltageHighest => some (.VoltageHighest value)
  | .VoltageAlarm => some (.VoltageAlarm (F64.ne value (.fin 0)))
  | .VoltageMinimumAlarm => some (.VoltageMinimumAlarm (F64.ne value (.fin 0)))
  | .VoltageMaximumAlarm => some (.VoltageMaximumAlarm (F64.ne value (.fin 0)))
  | .VoltageBeep => some (.VoltageBeep (F64.ne value (.fin 0)))
  | .VoltageLCriticalAlarm => some (.VoltageLCriticalAlarm (F64.ne value (.fin 0)))
  | .VoltageCriticalAlarm => some (.VoltageCriticalAlarm (F64.ne value (.fin 0)))
  | .FanInput => some (.FanInput value)
  | .FanMinimum => some (.FanMinimum value)
  | .FanMaximum => some (.FanMaximum value)
  | .FanAlarm => some (.FanAlarm (F64.ne value (.fin 0)))
  | .FanFault => some (.FanFault (F64.ne value (.fin 0)))
  | .FanDivisor => some (.FanDivisor value)
  | .FanBeep => some (.FanBeep (F64.ne value (.fin 0)))
  | .FanPulses => some (.FanPulses value)
  | .FanMinimumAlarm => some (.FanMinimumAlarm (F64.ne value (.fin 0)))
  | .FanMaximumAlarm => some (.FanMaximumAlarm (F64.ne value (.fin 0)))
  | .TemperatureInput => some (.TemperatureInput value)
  | .TemperatureMaximum => some (.TemperatureMaximum value)
  | .TemperatureMaximumHysteresis => some (.TemperatureMaximumHysteresis value)
  | .TemperatureMinimum => some (.TemperatureMinimum value)
  | .TemperatureCritical => some (.TemperatureCritical value)
  | .TemperatureCriticalHysteresis => some (.TemperatureCriticalHysteresis value)
  | .TemperatureLCritical => some (.TemperatureLCritical value)
  | .TemperatureEmergency => some (.TemperatureEmergency value)
  | .TemperatureEmergencyHysteresis => some (.TemperatureEmergencyHysteresis value)
  | .TemperatureLowest => some (.TemperatureLowest value)
  | .TemperatureHighest => some (.TemperatureHighest value)
  | .TemperatureMinimumHysteresis => some (.TemperatureMinimumHysteresis value)
  | .TemperatureLCriticalHysteresis => some (.TemperatureLCriticalHysteresis value)
  | .TemperatureAlarm => some (.TemperatureAlarm (F64.ne value (.fin 0)))
  | .TemperatureMaximumAlarm => some (.TemperatureMaximumAlarm (F64.ne value (.fin 0)))
  | .TemperatureMinimumAlarm => some (.TemperatureMinimumAlarm (F64.ne value (.fin 0)))
  | .TemperatureCriticalAlarm => some (.TemperatureCriticalAlarm (F64.ne value (.fin 0)))
  | .TemperatureFault => some (.TemperatureFault (F64.ne value (.fin 0)))
  | .TemperatureType =>
    match TemperatureSensorKind.fromRaw value with
    | none => none
    | some v => some (.TemperatureType v)
  | .TemperatureOffset => some (.TemperatureOffset value)
  | .TemperatureBeep => some (.TemperatureBeep (F64.ne value (.fin 0)))
  | .TemperatureEmergencyAlarm => some (.TemperatureEmergencyAlarm (F64.ne value (.fin 0)))
  | .TemperatureLCriticalAlarm => some (.TemperatureLCriticalAlarm (F64.ne value (.fin 0)))
  | .PowerAverage => some (.PowerAverage value)
  | .PowerAverageHighest => some (.PowerAverageHighest value)
  | .PowerAverageLowest => some (.PowerAverageLowest value)
  | .PowerInput => some (.PowerInput value)
  | .PowerInputHighest => some (.PowerInputHighest value)
  | .PowerInputLowest => some (.PowerInputLowest value)
  | .PowerCap => some (.PowerCap value)
  | .PowerCapHysteresis => some (.PowerCapHysteresis value)
  | .PowerMaximum => some (.PowerMaximum value)
  | .PowerCritical => some (.PowerCritical value)
  | .PowerMinimum => some (.PowerMinimum value)
  | .PowerLCritical => some (.PowerLCritical value)
  | .PowerAverageInterval => some (.PowerAverageInterval value)
  | .PowerAlarm => some (.PowerAlarm (F64.ne value (.fin 0)))
  | .PowerCapAlarm => some (.PowerCapAlarm (F64.ne value (.fin 0)))
  | .PowerMaximumAlarm => some (.PowerMaximumAlarm (F64.ne value (.fin 0)))
  | .PowerCriticalAlarm => some (.PowerCriticalAlarm (F64.ne value (.fin 0)))
  | .PowerMinimumAlarm => some (.PowerMinimumAlarm (F64.ne value (.fin 0)))
  | .PowerLCriticalAlarm => some (.PowerLCriticalAlarm (F64.ne value (.fin 0)))
  | .EnergyInput => some (.EnergyInput value)
  | .CurrentInput => some (.CurrentInput value)
  | .CurrentMinimum => some (.CurrentMinimum value)
  | .CurrentMaximum => some (.CurrentMaximum value)
  | .CurrentLCritical => some (.CurrentLCritical value)
  | .CurrentCritical => some (.CurrentCritical value)
  | .CurrentAverage => some (.CurrentAverage value)
  | .CurrentLowest => some (.CurrentLowest value)
  | .CurrentHighest => some (.CurrentHighest value)
  | .CurrentAlarm => some (.CurrentAlarm (F64.ne value (.fin 0)))
  | .CurrentMinimumAlarm => some (.CurrentMinimumAlarm (F64.ne value (.fin 0)))
  | .CurrentMaximumAlarm => some (.CurrentMaximumAlarm (F64.ne value (.fin 0)))
  | .CurrentBeep => some (.CurrentBeep (F64.ne value (.fin 0)))
  | .CurrentLCriticalAlarm => some (.CurrentLCriticalAlarm (F64.ne value (.fin 0)))
  | .CurrentCriticalAlarm => some (.CurrentCriticalAlarm (F64.ne value (.fin 0)))
  | .HumidityInput => some (.HumidityInput value)
  | .VoltageID => some (.VoltageID value)
  | .IntrusionAlarm => some (.IntrusionAlarm (F64.ne value (.fin 0)))
  | .IntrusionBeep => some (.IntrusionBeep (F64.ne value (.fin 0)))
  | .BeepEnable => some (.BeepEnable (F64.ne value (.fin 0)))
  | .Unknown => some (.Unknown kind value)

/-- `Value::kind` (src/value.rs lines 343-443): the `Kind` of a `Value`. -/
def Value.kind : Value → Kind
  | .VoltageInput _ => Kind.VoltageInput
  | .VoltageMinimum _ => Kind.VoltageMinimum
  | .VoltageMaximum _ => Kind.VoltageMaximum
  | .VoltageLCritical _ => Kind.VoltageLCritical
  | .VoltageCritical _ => Kind.VoltageCritical
  | .VoltageAverage _ => Kind.VoltageAverage
  | .VoltageLowest _ => Kind.VoltageLowest
  | .VoltageHighest _ => Kind.VoltageHighest
  | .VoltageAlarm _ => Kind.VoltageAlarm
  | .VoltageMinimumAlarm _ => Kind.VoltageMinimumAlarm
  | .VoltageMaximumAlarm _ => Kind.VoltageMaximumAlarm
  | .VoltageBeep _ => Kind.VoltageBeep
  | .VoltageLCriticalAlarm _ => Kind.VoltageLCriticalAlarm
  | .VoltageCriticalAlarm _ => Kind.VoltageCriticalAlarm
  | .FanInput _ => Kind.FanInput
  | .FanMinimum _ => Kind.FanMinimum
  | .FanMaximum _ => Kind.FanMaximum
  | .FanAlarm _ => Kind.FanAlarm
  | .FanFault _ => Kind.FanFault
  | .FanDivisor _ => Kind.FanDivisor
  | .FanBeep _ => Kind.FanBeep
  | .FanPulses _ => Kind.FanPulses
  | .FanMinimumAlarm _ => Kind.FanMinimumAlarm
  | .FanMaximumAlarm _ => Kind.FanMaximumAlarm
  | .TemperatureInput _ => Kind.TemperatureInput
  | .TemperatureMaximum _ => Kind.TemperatureMaximum
  | .TemperatureMaximumHysteresis _ => Kind.TemperatureMaximumHysteresis
  | .TemperatureMinimum _ => Kind.TemperatureMinimum
  | .TemperatureCritical _ => Kind.TemperatureCritical
  | .TemperatureCriticalHysteresis _ => Kind.TemperatureCriticalHysteresis
  | .TemperatureLCritical _ => Kind.TemperatureLCritical
  | .TemperatureEmergency _ => Kind.TemperatureEmergency
  | .TemperatureEmergencyHysteresis _ => Kind.TemperatureEmergencyHysteresis
  | .TemperatureLowest _ => Kind.TemperatureLowest
  | .TemperatureHighest _ => Kind.TemperatureHighest
  | .TemperatureMinimumHysteresis _ => Kind.TemperatureMinimumHysteresis
  | .TemperatureLCriticalHysteresis _ => Kind.TemperatureLCriticalHysteresis
  | .TemperatureAlarm _ => Kind.TemperatureAlarm
  | .TemperatureMaximumAlarm _ => Kind.TemperatureMaximumAlarm
  | .TemperatureMinimumAlarm _ => Kind.TemperatureMinimumAlarm
  | .TemperatureCriticalAlarm _ => Kind.TemperatureCriticalAlarm
  | .TemperatureFault _ => Kind.TemperatureFault
  | .TemperatureType _ => Kind.TemperatureType
  | .TemperatureOffset _ => Kind.TemperatureOffset
  | .TemperatureBeep _ => Kind.TemperatureBeep
  | .TemperatureEmergencyAlarm _ => Kind.TemperatureEmergencyAlarm
  | .TemperatureLCriticalAlarm _ => Kind.TemperatureLCriticalAlarm
  | .PowerAverage _ => Kind.PowerAverage
  | .PowerAverageHighest _ => Kind.PowerAverageHighest
  | .PowerAverageLowest _ => Kind.PowerAverageLowest
  | .PowerInput _ => Kind.PowerInput
  | .PowerInputHighest _ => Kind.PowerInputHighest
  | .PowerInputLowest _ => Kind.PowerInputLowest
  | .PowerCap _ => Kind.PowerCap
  | .PowerCapHysteresis _ => Kind.PowerCapHysteresis
  | .PowerMaximum _ => Kind.PowerMaximum
  | .PowerCritical _ => Kind.PowerCritical
  | .PowerMinimum _ => Kind.PowerMinimum
  | .PowerLCritical _ => Kind.PowerLCritical
  | .PowerAverageInterval _ => Kind.PowerAverageInterval
  | .PowerAlarm _ => Kind.PowerAlarm
  | .PowerCapAlarm _ => Kind.PowerCapAlarm
  | .PowerMaximumAlarm _ => Kind.PowerMaximumAlarm
  | .PowerCriticalAlarm _ => Kind.PowerCriticalAlarm
  | .PowerMinimumAlarm _ => Kind.PowerMinimumAlarm
  | .PowerLCriticalAlarm _ => Kind.PowerLCriticalAlarm
  | .EnergyInput _ => Kind.EnergyInput
  | .CurrentInput _ => Kind.CurrentInput
  | .CurrentMinimum _ => Kind.CurrentMinimum
  | .CurrentMaximum _ => Kind.CurrentMaximum
  | .CurrentLCritical _ => Kind.CurrentLCritical
  | .CurrentCritical _ => Kind.CurrentCritical
  | .CurrentAverage _ => Kind.CurrentAverage
  | .CurrentLowest _ => Kind.CurrentLowest
  | .CurrentHighest _ => Kind.CurrentHighest
  | .CurrentAlarm _ => Kind.CurrentAlarm
  | .CurrentMinimumAlarm _ => Kind.CurrentMinimumAlarm
  | .CurrentMaximumAlarm _ => Kind.CurrentMaximumAlarm
  | .CurrentBeep _ => Kind.CurrentBeep
  | .CurrentLCriticalAlarm _ => Kind.CurrentLCriticalAlarm
  | .CurrentCriticalAlarm _ => Kind.CurrentCriticalAlarm
  | .HumidityInput _ => Kind.HumidityInput
  | .VoltageID _ => Kind.VoltageID
  | .IntrusionAlarm _ => Kind.IntrusionAlarm
  | .IntrusionBeep _ => Kind.IntrusionBeep
  | .BeepEnable _ => Kind.BeepEnable
  | .Unknown _ _ => Kind.Unknown

/-- `Value::raw_value` (src/value.rs lines 447-562): the raw double of a
`Value`.  Boolean variants map to `1.0`/`0.0`, `TemperatureType` to its C
discriminant as a double, every other variant to its stored double. -/
def Value.raw_value : Value → F64
  | .VoltageInput value => value
  | .VoltageMinimum value => value
  | .VoltageMaximum value => value
  | .VoltageLCritical value => value
  | .VoltageCritical value => value
  | .VoltageAverage value => value
  | .VoltageLowest value => value
  | .VoltageHighest value => value
  | .VoltageAlarm value => if value then .fin 1 else .fin 0
  | .VoltageMinimumAlarm value => if value then .fin 1 else .fin 0
  | .VoltageMaximumAlarm value => if value then .fin 1 else .fin 0
  | .VoltageBeep value => if value then .fin 1 else .fin 0
  | .VoltageLCriticalAlarm value => if value then .fin 1 else .fin 0
  | .VoltageCriticalAlarm value => if value then .fin 1 else .fin 0
  | .FanInput value => value
  | .FanMinimum value => value
  | .FanMaximum value => value
  | .FanAlarm value => if value then .fin 1 else .fin 0
  | .FanFault value => if value then .fin 1 else .fin 0
  | .FanDivisor value => value
  | .FanBeep value => if value then .fin 1 else .fin 0
  | .FanPulses value => value
  | .FanMinimumAlarm value => if value then .fin 1 else .fin 0
  | .FanMaximumAlarm value => if value then .fin 1 else .fin 0
  | .TemperatureInput value => value
  | .TemperatureMaximum value => value
  | .TemperatureMaximumHysteresis value => value
  | .TemperatureMinimum value => value
  | .TemperatureCritical value => value
  | .TemperatureCriticalHysteresis value => value
  | .TemperatureLCritical value => value
  | .TemperatureEmergency value => value
  | .TemperatureEmergencyHysteresis value => value
  | .TemperatureLowest value => value
  | .TemperatureHighest value => value
  | .TemperatureMinimumHysteresis value => value
  | .TemperatureLCriticalHysteresis value => value
  | .TemperatureAlarm value => if value then .fin 1 else .fin 0
  | .TemperatureMaximumAlarm value => if value then .fin 1 else .fin 0
  | .TemperatureMinimumAlarm value => if value then .fin 1 else .fin 0
  | .TemperatureCriticalAlarm value => if value then .fin 1 else .fin 0
  | .TemperatureFault value => if value then .fin 1 else .fin 0
  | .TemperatureType value => .fin (TemperatureSensorKind.asRaw value)
  | .TemperatureOffset value => value
  | .TemperatureBeep value => if value then .fin 1 else .fin 0
  | .TemperatureEmergencyAlarm value => if value then .fin 1 else .fin 0
  | .TemperatureLCriticalAlarm value => if value then .fin 1 else .fin 0
  | .PowerAverage value => value
  | .PowerAverageHighest value => value
  | .PowerAverageLowest value => value
  | .PowerInput value => value
  | .PowerInputHighest value => value
  | .PowerInputLowest value => value
  | .PowerCap value => value
  | .PowerCapHysteresis value => value
  | .PowerMaximum value => value
  | .PowerCritical value => value
  | .PowerMinimum value => value
  | .PowerLCritical value => value
  | .PowerAverageInterval value => value
  | .PowerAlarm value => if value then .fin 1 else .fin 0
  | .PowerCapAlarm value => if value then .fin 1 else .fin 0
  | .PowerMaximumAlarm value => if value then .fin 1 else .fin 0
  | .PowerCriticalAlarm value => if value then .fin 1 else .fin 0
  | .PowerMinimumAlarm value => if value then .fin 1 else .fin 0
  | .PowerLCriticalAlarm value => if value then .fin 1 else .fin 0
  | .EnergyInput value => value
  | .CurrentInput value => value
  | .CurrentMinimum value => value
  | .CurrentMaximum value => value
  | .CurrentLCritical value => value
  | .CurrentCritical value => value
  | .CurrentAverage value => value
  | .CurrentLowest value => value
  | .CurrentHighest value => value
  | .CurrentAlarm value => if value then .fin 1 else .fin 0
  | .CurrentMinimumAlarm value => if value then .fin 1 else .fin 0
  | .CurrentMaximumAlarm value => if value then .fin 1 else .fin 0
  | .CurrentBeep value => if value then .fin 1 else .fin 0
  | .CurrentLCriticalAlarm value => if value then .fin 1 else .fin 0
  | .CurrentCriticalAlarm value => if value then .fin 1 else .fin 0
  | .HumidityInput value => value
  | .VoltageID value => value
  | .IntrusionAlarm value => if value then .fin 1 else .fin 0
  | .IntrusionBeep value => if value then .fin 1 else .fin 0
  | .BeepEnable value => if value then .fin 1 else .fin 0
  | .Unknown _ value => value

/-- The kinds whose `Value::new` stores a boolean (`value != 0.0`): the
alarm, beep, fault and `BeepEnable` kinds.  (Specification vocabulary for
the round-trip claim; not a function of the crate.) -/
def Kind.isBoolKind : Kind → Bool
  | .VoltageAlarm => true
  | .VoltageMinimumAlarm => true
  | .VoltageMaximumAlarm => true
  | .VoltageBeep => true
  | .VoltageLCriticalAlarm => true
  | .VoltageCriticalAlarm => true
  | .FanAlarm => true
  | .FanFault => true
  | .FanBeep => true
  | .FanMinimumAlarm => true
  | .FanMaximumAlarm => true
  | .TemperatureAlarm => true
  | .TemperatureMaximumAlarm => true
  | .TemperatureMinimumAlarm => true
  | .TemperatureCriticalAlarm => true
  | .TemperatureFault => true
  | .TemperatureBeep => true
  | .TemperatureEmergencyAlarm => true
  | .TemperatureLCriticalAlarm => true
  | .PowerAlarm => true
  | .PowerCapAlarm => true
  | .PowerMaximumAlarm => true
  | .PowerCriticalAlarm => true
  | .PowerMinimumAlarm => true
  | .PowerLCriticalAlarm => true
  | .CurrentAlarm => true
  | .CurrentMinimumAlarm => true
  | .CurrentMaximumAlarm => true
  | .CurrentBeep => true
  | .CurrentLCriticalAlarm => true
  | .CurrentCriticalAlarm => true
  | .IntrusionAlarm => true
  | .IntrusionBeep => true
  | .BeepEnable => true
  | _ => false

/-- Contents behind a non-null C `char` pointer: either valid UTF-8, or
invalid UTF-8 carried together with its lossy (U+FFFD-replacement)
decoding.  A nullable pointer is an `Option CBytes`. -/
inductive CBytes where
  | utf8 (s : String)
  | nonUtf8 (lossy : String)
deriving DecidableEq

/-- `CStr::to_string_lossy`: the string itself for valid UTF-8, the
replacement-decoded form otherwise. -/
def CBytes.toStringLossy : CBytes → String
  | .utf8 s => s
  | .nonUtf8 lossy => lossy

/-- `utils::lossy_string_from_c_str` (src/utils.rs lines 160-167): the
default string for a null pointer, the lossy decoding otherwise. -/
def lossy_string_from_c_str (s : Option CBytes) (default : String) : String :=
  match s with
  | none => default
  | some bytes => bytes.toStringLossy

/-- `utils::str_from_c_str` (src/utils.rs lines 169-176): `none` for a null
pointer or invalid UTF-8, the string otherwise. -/
def str_from_c_str (s : Option CBytes) : Option String :=
  match s with
  | none => none
  | some (.utf8 str) => some str
  | some (.nonUtf8 _) => none

/-- `utils::path_from_c_str` (src/utils.rs lines 178-189): `none` for a
null pointer, otherwise a `Path` made of the bytes with no UTF-8
validation. -/
def path_from_c_str (s : Option CBytes) : Option CBytes := s

/-- The `io::ErrorKind`s the crate constructs errors from. -/
inductive IOErrorKind where
  | AlreadyExists
  | NotFound
  | InvalidInput
  | InvalidData
deriving DecidableEq

/-- `errors::Error` (src/errors.rs lines 17-55), restricted to the variants
the embedded operations construct: `lmSensorsErr` models `Error::LMSensors`
(operation, absolute backend error number, backend-supplied description);
`ioError` models `Error::IO` (operation, and the `io::ErrorKind` of its
source). -/
inductive Error where
  | lmSensorsErr (operation : String) (number : ℤ) (description : String)
  | ioError (operation : String) (kind : IOErrorKind)
deriving DecidableEq

/-- A value held by one of the backend's global callback function-pointer
slots: one of the crate's three `Reporter` callbacks, or any other function
pointer (identified by address). -/
inductive FnPtr where
  | reporterParseError
  | reporterParseErrorWfn
  | reporterFatalError
  | other (n : ℕ)
deriving DecidableEq

/-- `utils::CallBacks` (src/utils.rs lines 36-41): the values of the three
global backend slots `sensors_parse_error`, `sensors_parse_error_wfn` and
`sensors_fatal_error`, each nullable (`Option` of a function pointer, as in
the Rust struct). -/
structure CallBacks where
  parse_error : Option FnPtr
  parse_error_wfn : Option FnPtr
  fatal_error : Option FnPtr
deriving DecidableEq

/-- A `*mut Box<dyn Listener>`: null (`none`) or a heap pointer identified
by its address. -/
abbrev ListenerPtr := Option ℕ

/-- The process-global mutable state the crate manipulates: the
`INITIALIZED` flag (src/lib.rs line 338), the `ERROR_LISTENER` slot
(src/errors.rs line 138), and the three backend callback slots
(src/utils.rs). -/
structure GlobalState where
  initialized : Bool
  errorListener : ListenerPtr
  callbacks : CallBacks
deriving DecidableEq

/-- `CallBacks::new(Self::parse_error, Self::parse_error_wfn,
Self::fatal_error)` as built in `Reporter::new` (src/errors.rs lines
148-149): all three slots point at the crate's callbacks. -/
def crateCallBacks : CallBacks :=
  { parse_error := some .reporterParseError
  , parse_error_wfn := some .reporterParseErrorWfn
  , fatal_error := some .reporterFatalError }

/-- `CallBacks::set` (src/utils.rs lines 56-66): store the three slots. -/
def CallBacks.set (self : CallBacks) (s : GlobalState) : GlobalState :=
  { s with callbacks := self }

/-- `CallBacks::replace` (src/utils.rs lines 68-87): read the previous
values of the three slots, then store the new ones. -/
def CallBacks.replace (self : CallBacks) (s : GlobalState) :
    CallBacks × GlobalState :=
  (s.callbacks, { s with callbacks := self })

/-- `errors::Reporter` (src/errors.rs lines 140-144): the previously
installed listener pointer and callback triple, owned so that they can be
restored. -/
structure Reporter where
  previous_error_listener : ListenerPtr
  previous_call_backs : CallBacks
deriving DecidableEq

/-- `Reporter::new` (src/errors.rs lines 147-158): swap the given listener
into `ERROR_LISTENER` and the crate's callbacks into the backend slots,
remembering the previous values of both. -/
def Reporter.new (error_listener : ListenerPtr) (s : GlobalState) :
    Reporter × GlobalState :=
  let call_backs := crateCallBacks
  let previous_error_listener := s.errorListener
  let s1 := { s with errorListener := error_listener }
  let (previous_call_backs, s2) := call_backs.replace s1
  ({ previous_error_listener, previous_call_backs }, s2)

/-- `Reporter::restore` (src/errors.rs lines 160-163): put the previous
callback triple back into the backend slots, swap the previous listener
back into `ERROR_LISTENER`, and return the listener pointer that was
installed. -/
def Reporter.restore (self : Reporter) (s : GlobalState) :
    ListenerPtr × GlobalState :=
  let s1 := self.previous_call_backs.set s
  (s1.errorListener, { s1 with errorListener := self.previous_error_listener })

/-- `LMSensors` (src/lib.rs lines 213-216): the library instance, owning
its error reporter. -/
structure LMSensors where
  error_reporter : Reporter
deriving DecidableEq

/-- `LMSensors::new` (src/lib.rs lines 472-507).  The backend's
`sensors_init` return code and the `sensors_strerror` text for it are
passed in as `initResult` and `desc`; the configuration stream plays no
further role and is omitted.  Under the API lock: if `INITIALIZED` is set,
fail with an `AlreadyExists` I/O-class error; otherwise install the
reporter, call `sensors_init`, and either mark the state initialized or
restore the previous global state and fail with the backend error. -/
def LMSensors.new (initResult : ℤ) (desc : String)
    (error_listener : ListenerPtr) (s : GlobalState) :
    Except Error LMSensors × GlobalState :=
  if s.initialized then
    (.error (.ioError "sensors_init()" .AlreadyExists), s)
  else
    let (error_reporter, s1) := Reporter.new error_listener s
    if initResult = 0 then
      (.ok { error_reporter }, { s1 with initialized := true })
    else
      let (_, s2) := error_reporter.restore s1
      (.error (.lmSensorsErr "sensors_init()" initResult.natAbs desc), s2)

/-- `impl Drop for LMSensors` (src/lib.rs lines 509-529).  Under the API
lock: call `sensors_cleanup` (backend-internal, no modelled state), restore
the previous listener and callbacks, clear `INITIALIZED`, and hand back the
listener pointer that had been installed (the caller frees it when
non-null). -/
def LMSensors.drop (self : LMSensors) (s : GlobalState) :
    ListenerPtr × GlobalState :=
  let (error_listener, s1) := self.error_reporter.restore s
  (error_listener, { s1 with initialized := false })

/-- The listener a backend callback dispatches to:
`ERROR_LISTENER.load().as_ref().map_or(&DefaultListener as &dyn Listener,
|v| &**v)` — the installed listener when the slot is non-null, the default
listener otherwise. -/
inductive ListenerId where
  | installed (p : ℕ)
  | defaultListener
deriving DecidableEq

/-- The listener chosen by the callback bodies in src/errors.rs. -/
def installedListener (s : GlobalState) : ListenerId :=
  match s.errorListener with
  | some p => .installed p
  | none => .defaultListener

/-- An invocation of `Listener::on_lm_sensors_config_error`: the listener
it was delivered to and the three arguments. -/
structure ConfigEvent where
  listener : ListenerId
  error : String
  fileName : Option CBytes
  lineNumber : ℕ
deriving DecidableEq

/-- An invocation of `Listener::on_lm_sensors_fatal_error`: the listener it
was delivered to and the two arguments. -/
structure FatalEvent where
  listener : ListenerId
  error : String
  procedure : String
deriving DecidableEq

/-- Whether control returns from a callback to the backend, or the process
is terminated inside it. -/
inductive ProcessOutcome where
  | aborted
  | returned
deriving DecidableEq

/-- `Reporter::fatal_error` (src/errors.rs lines 180-189): decode the
procedure name (`"<unknown-procedure>"` when null or invalid UTF-8) and the
error text (`"<unknown-error>"` when null), deliver them to the installed
(or default) listener's `on_lm_sensors_fatal_error`, then
`process::abort()`. -/
def Reporter.fatal_error (procedure err : Option CBytes) (s : GlobalState) :
    FatalEvent × ProcessOutcome :=
  let procedureStr := (str_from_c_str procedure).getD "<unknown-procedure>"
  let errorStr := lossy_string_from_c_str err "<unknown-error>"
  ({ listener := installedListener s
    , error := errorStr
    , procedure := procedureStr },
   .aborted)

/-- `Reporter::parse_error_wfn` (src/errors.rs lines 169-178): decode the
error text (`"<unknown-error>"` when null) and the file name, clamp the
line number to at least 1 (`cmp::max(line_no, 1) as usize`), and deliver
the event to the installed (or default) listener's
`on_lm_sensors_config_error`. -/
def Reporter.parse_error_wfn (err file_name : Option CBytes) (line_no : ℤ)
    (s : GlobalState) : ConfigEvent :=
  { listener := installedListener s
  , error := lossy_string_from_c_str err "<unknown-error>"
  , fileName := path_from_c_str file_name
  , lineNumber := (max line_no 1).toNat }

/-- `Reporter::parse_error` (src/errors.rs lines 165-167): delegates to
`parse_error_wfn` with a null file name. -/
def Reporter.parse_error (err : Option CBytes) (line_no : ℤ)
    (s : GlobalState) : ConfigEvent :=
  Reporter.parse_error_wfn err none line_no s

/-- `FeatureRef::raw_label` (src/feature.rs lines 94-111), with the pointer
returned by `sensors_get_label` passed in as `label`.  A null pointer
becomes an I/O-class error of kind `InvalidInput`; otherwise the bytes are
copied into an owned string and the backend-allocated buffer is released
via `libc::free` (recorded by the boolean). -/
def FeatureRef.raw_label (label : Option CBytes) :
    Except Error CBytes × Bool :=
  match label with
  | none => (.error (.ioError "sensors_get_label()" .InvalidInput), false)
  | some bytes => (.ok bytes, true)

/-- `sensors_bus_id` (from `sensors-sys`): the `(type_, nr)` pair of C
shorts. -/
structure SensorsBusId where
  type_ : ℤ
  nr : ℤ
deriving DecidableEq

/-- A non-null C string pointer: the address it points at and the bytes
stored there.  (Distinct addresses may hold equal bytes.) -/
structure CPtr where
  addr : ℕ
  bytes : CBytes
deriving DecidableEq

/-- `sensors_chip_name` (from `sensors-sys`): the nullable `prefix` and
`path` C string pointers (the first field is called `prefix` in C; Lean
reserves that word, so it is named `pfx` here), the bus, and the address.
The `sensors-sys` crate derives `PartialEq` for it, which compares fields —
for the two pointer fields, the pointers themselves. -/
structure SensorsChipName where
  pfx : Option CPtr
  bus : SensorsBusId
  addr : ℤ
  path : Option CPtr
deriving DecidableEq

/-- `Chip` (src/chip.rs lines 22-26): owned chip handle around a raw
record. -/
structure Chip where
  raw : SensorsChipName
deriving DecidableEq

/-- `ChipRef` (src/chip.rs lines 199-200): borrowed chip handle; the
referenced raw record. -/
structure ChipRef where
  raw : SensorsChipName
deriving DecidableEq

/-- `Bus` (src/lib.rs lines 50-51): copyable `(bus type, bus number)`
value; its derived `PartialEq` compares the two shorts. -/
structure Bus where
  raw : SensorsBusId
deriving DecidableEq

/-- `ChipRef::raw_address` (src/chip.rs lines 322-324). -/
def ChipRef.raw_address (self : ChipRef) : ℤ := self.raw.addr

/-- `ChipRef::bus` (src/chip.rs lines 266-268): `Bus(self.0.bus)`. -/
def ChipRef.bus (self : ChipRef) : Bus := ⟨self.raw.bus⟩

/-- `ChipRef::raw_prefix` (src/chip.rs lines 307-310): `None` for a null
`prefix` pointer, otherwise the C string behind it. -/
def ChipRef.rawPfx (self : ChipRef) : Option CBytes :=
  self.raw.pfx.map CPtr.bytes

/-- `ChipRef::raw_path` (src/chip.rs lines 314-317): `None` for a null
`path` pointer, otherwise the C string behind it. -/
def ChipRef.raw_path (self : ChipRef) : Option CBytes :=
  self.raw.path.map CPtr.bytes

/-- `impl PartialEq<ChipRef> for ChipRef` (src/chip.rs lines 327-334):
compare address, bus, prefix *contents* and path *contents*. -/
def ChipRef.eqChipRef (self other : ChipRef) : Bool :=
  self.raw_address == other.raw_address
    && self.bus == other.bus
    && self.rawPfx == other.rawPfx
    && self.raw_path == other.raw_path

/-- `Chip::as_ref` (src/chip.rs lines 82-84). -/
def Chip.as_ref (self : Chip) : ChipRef := ⟨self.raw⟩

/-- `impl PartialEq<ChipRef> for Chip` (src/chip.rs lines 176-180):
`self.as_ref() == *other`. -/
def Chip.eqChipRef (self : Chip) (other : ChipRef) : Bool :=
  ChipRef.eqChipRef self.as_ref other

/-- `impl PartialEq<Chip> for ChipRef` (src/chip.rs lines 182-186):
`*self == other.as_ref()`. -/
def ChipRef.eqChip (self : ChipRef) (other : Chip) : Bool :=
  ChipRef.eqChipRef self other.as_ref

/-- `#[derive(PartialEq)]` on `Chip` (src/chip.rs line 22): field-wise
comparison of the raw `sensors_chip_name` records — including the `prefix`
and `path` pointers, not the strings behind them. -/
def Chip.derivedEq (self other : Chip) : Bool := self.raw == other.raw

/-- `impl Display for Chip` (src/chip.rs lines 188-196), with the outcome
of `self.raw_name()` passed in: the lossy decoding of the name on success,
the replacement character `U+FFFD` when the lookup failed. -/
def Chip.displayFmt (raw_name : Except Error CBytes) : String :=
  match raw_name with
  | .ok name => name.toStringLossy
  | .error _ => "�"

/-- `impl Display for ChipRef` (src/chip.rs lines 336-344): same as for
`Chip`. -/
def ChipRef.displayFmt (raw_name : Except Error CBytes) : String :=
  match raw_name with
  | .ok name => name.toStringLossy
  | .error _ => "�"

/-- `impl Display for FeatureRef` (src/feature.rs lines 154-162), with the
outcome of `self.raw_label()` passed in: the lossy decoding of the label on
success, `U+FFFD` when the lookup failed. -/
def FeatureRef.displayFmt (raw_label_result : Except Error CBytes) : String :=
  match raw_label_result with
  | .ok label => label.toStringLossy
  | .error _ => "�"

/-- `impl Display for SubFeatureRef` (src/sub_feature.rs lines 160-168),
with the outcome of `self.raw_name()` passed in: the lossy decoding of the
name when present, and nothing (the empty string) when the name is null. -/
def SubFeatureRef.displayFmt (raw_name : Option CBytes) : String :=
  match raw_name with
  | some name => name.toStringLossy
  | none => ""

/-- C4, counterexample.  The claim states that
`TemperatureSensorKind::from_raw` returns `None` for *every* negative input,
and returns the enumerated variant corresponding to the rounded integer for
*every* input rounding into `[0, 1000]`.  Both parts fail on the code, at
inputs well inside the region where the `i64` conversion is defined:
the negative input `-0.25` rounds (ties away from zero) to `0` and yields
`Some(Disabled)`, and the input `7.0` rounds to `7 ∈ [0, 1000]`, an integer
with no corresponding variant, so `from_raw` yields `None` (the crate's own
test expects `from_raw(1000.49)` to be `None` as well). -/
theorem temperatureSensorKind_fromRaw_spec_deviation :
    ((-1/4 : ℚ) < 0 ∧ roundFitsI64 (-1/4)
      ∧ TemperatureSensorKind.fromRaw (.fin (-1/4)) = some .Disabled)
    ∧ ((0:ℤ) ≤ roundAway 7 ∧ roundAway 7 ≤ 1000 ∧ roundFitsI64 7
        ∧ TemperatureSensorKind.fromRaw (.fin 7) = none) := by
  have h4 : roundAway (-1/4) = 0 := by norm_num [roundAway, Int.ceil_eq_iff]
  have h7 : roundAway 7 = 7 := by norm_num [roundAway, Int.floor_eq_iff]
  refine ⟨⟨by norm_num, by unfold roundFitsI64; rw [h4]; norm_num, ?_⟩,
      by norm_num [h7], by norm_num [h7],
      by unfold roundFitsI64; rw [h7]; norm_num, ?_⟩ <;>
    simp [TemperatureSensorKind.fromRaw, F64.isNan, F64.isInfinite, F64.roundToInt,
      TemperatureSensorKind.tryFrom, h4, h7]

/-- C4, amended.  Characterization of `TemperatureSensorKind::from_raw`
over the inputs on which the source is defined: `None` for NaN and for
negative infinity; `Thermistor` for positive infinity; and for finite
inputs whose rounded value fits in `i64` (elsewhere the source's
`to_int_unchecked` conversion is undefined behaviour): rounding (ties away
from zero) to an integer above 1000 gives `Thermistor`, rounding to a
*negative* integer gives `None`, rounding into `[0, 6]` gives the variant
whose discriminant is the rounded integer, and rounding into `[7, 1000]` —
where no variant carries that discriminant — gives `None`.  (For the two
middle ranges the rounded value lies in `[0, 1000]`, so fitting in `i64`
is automatic and no hypothesis is stated.) -/
theorem temperatureSensorKind_fromRaw_characterization :
    (TemperatureSensorKind.fromRaw .nan = none)
    ∧ (TemperatureSensorKind.fromRaw (.inf true) = some .Thermistor)
    ∧ (TemperatureSensorKind.fromRaw (.inf false) = none)
    ∧ (∀ q : ℚ, roundFitsI64 q → roundAway q < 0 →
        TemperatureSensorKind.fromRaw (.fin q) = none)
    ∧ (∀ q : ℚ, roundFitsI64 q → 1000 < roundAway q →
        TemperatureSensorKind.fromRaw (.fin q) = some .Thermistor)
    ∧ (∀ q : ℚ, 0 ≤ roundAway q → roundAway q ≤ 6 →
        ∃ t, TemperatureSensorKind.fromRaw (.fin q) = some t
          ∧ TemperatureSensorKind.asRaw t = roundAway q)
    ∧ (∀ q : ℚ, 7 ≤ roundAway q → roundAway q ≤ 1000 →
        TemperatureSensorKind.fromRaw (.fin q) = none) := by
  refine ⟨by simp [TemperatureSensorKind.fromRaw, F64.isNan],
    by simp [TemperatureSensorKind.fromRaw, F64.isNan, F64.isInfinite, F64.isSignPositive],
    by simp [TemperatureSensorKind.fromRaw, F64.isNan, F64.isInfinite, F64.isSignPositive],
    ?_, ?_, ?_, ?_⟩ <;>
      intro q <;>
      simp only [TemperatureSensorKind.fromRaw, F64.isNan, F64.isInfinite, F64.roundToInt,
        Bool.false_eq_true, if_false]
  · intro _ h
    rw [if_pos h]
  · intro _ h
    rw [if_neg (by omega), if_pos h]
  · intro h h6
    rw [if_neg (by omega), if_neg (by omega)]
    simp only [TemperatureSensorKind.tryFrom]
    interval_cases hq : roundAway q <;> simp [TemperatureSensorKind.asRaw]
  · intro h h1000
    rw [if_neg (by omega), if_neg (by omega)]
    simp only [TemperatureSensorKind.tryFrom]
    rw [if_neg (by omega), if_neg (by omega), if_neg (by omega), if_neg (by omega),
      if_neg (by omega), if_neg (by omega), if_neg (by omega)]

/-- Witness for the C4 amended theorem: the input `500.0` rounds to
`500 ∈ [7, 1000]` and is mapped to `None`, and the input `1001.0` rounds
to `1001 > 1000` — with the rounded value fitting in `i64` — and is mapped
to `Thermistor`. -/
theorem temperatureSensorKind_fromRaw_characterization_witness :
    ((7:ℤ) ≤ roundAway 500 ∧ roundAway 500 ≤ 1000
      ∧ TemperatureSensorKind.fromRaw (.fin 500) = none)
    ∧ (roundFitsI64 1001 ∧ (1000:ℤ) < roundAway 1001
      ∧ TemperatureSensorKind.fromRaw (.fin 1001) = some .Thermistor) :=
  ⟨⟨by norm_num [roundAway, Int.floor_eq_iff],
    by norm_num [roundAway, Int.floor_eq_iff],
    temperatureSensorKind_fromRaw_characterization.2.2.2.2.2.2 500
      (by norm_num [roundAway, Int.floor_eq_iff])
      (by norm_num [roundAway, Int.floor_eq_iff])⟩,
   ⟨by have h : roundAway 1001 = 1001 := by norm_num [roundAway, Int.floor_eq_iff]
       norm_num [roundFitsI64, h],
    by have h : roundAway 1001 = 1001 := by norm_num [roundAway, Int.floor_eq_iff]
       norm_num [h],
    temperatureSensorKind_fromRaw_characterization.2.2.2.2.1 1001
      (by have h : roundAway 1001 = 1001 := by norm_num [roundAway, Int.floor_eq_iff]
          norm_num [roundFitsI64, h])
      (by have h : roundAway 1001 = 1001 := by norm_num [roundAway, Int.floor_eq_iff]
          norm_num [h])⟩⟩

/-- C2: for every `value::Kind` `k` and every double `v` such that
`Value::new(k, v)` returns `Some(val)`, `val.kind() == k`: construction never
produces a variant whose kind differs from the kind requested. -/
theorem value_new_kind (k : Kind) (v : F64) (val : Value)
    (h : Value.new k v = some val) : Value.kind val = k := by
  cases k <;> simp only [Value.new] at h <;>
    first
      | (injection h with h; subst h; rfl)
      | (cases hf : TemperatureSensorKind.fromRaw v <;> simp_all
         subst h; rfl)

/-- Witness for C2 at the concrete input `(FanInput, 2.0)`. -/
theorem value_new_kind_witness :
    Value.new .FanInput (.fin 2) = some (.FanInput (.fin 2))
    ∧ Value.kind (.FanInput (.fin 2)) = .FanInput :=
  ⟨rfl, value_new_kind .FanInput (.fin 2) _ rfl⟩

/-- C3: for every kind `k` that stores the double directly (neither a
boolean alarm/beep/fault/`BeepEnable` kind nor `TemperatureType`),
`Value::new(k, v).unwrap().raw_value()` returns `v` unchanged; for every
boolean kind it returns `1.0` when `v != 0.0` (including NaN) and `0.0`
when `v == 0.0`. -/
theorem value_raw_value_roundtrip (k : Kind) (v : F64) (val : Value)
    (h : Value.new k v = some val) :
    (Kind.isBoolKind k = false → k ≠ Kind.TemperatureType →
      Value.raw_value val = v)
    ∧ (Kind.isBoolKind k = true →
      Value.raw_value val = if F64.beq v (.fin 0) then .fin 0 else .fin 1) := by
  cases k <;> simp only [Value.new] at h <;>
    first
      | (injection h with h; subst h
         exact ⟨fun _ _ => rfl, fun hb => absurd hb (by decide)⟩)
      | (injection h with h; subst h
         refine ⟨fun hb _ => absurd hb (by decide), fun _ => ?_⟩
         simp only [Value.raw_value, F64.ne]
         rcases Bool.dichotomy (F64.beq v (.fin 0)) with hv | hv <;> simp [hv])
      | (cases hf : TemperatureSensorKind.fromRaw v <;> simp_all [Kind.isBoolKind])

/-- Witness for C3 at the concrete inputs `(VoltageInput, 3.0)`
(direct kind) and `(FanAlarm, 3.0)` (boolean kind). -/
theorem value_raw_value_roundtrip_witness :
    (Kind.isBoolKind .VoltageInput = false
      ∧ Value.raw_value (.VoltageInput (.fin 3)) = .fin 3)
    ∧ (Kind.isBoolKind .FanAlarm = true
      ∧ Value.raw_value (.FanAlarm (F64.ne (.fin 3) (.fin 0))) =
          if F64.beq (.fin 3) (.fin 0) then .fin 0 else .fin 1) :=
  ⟨⟨rfl, (value_raw_value_roundtrip .VoltageInput (.fin 3) _ rfl).1 rfl
      (by decide)⟩,
   ⟨rfl, (value_raw_value_roundtrip .FanAlarm (.fin 3) _ rfl).2 rfl⟩⟩

/-- Sample callback-slot contents installed by some other user of the
backend, for witnesses. -/
def sampleCallBacks : CallBacks :=
  { parse_error := some (.other 3)
  , parse_error_wfn := none
  , fatal_error := some (.other 4) }

/-- A global state with no live library instance, for witnesses. -/
def sampleIdle : GlobalState :=
  { initialized := false, errorListener := some 7, callbacks := sampleCallBacks }

/-- A global state with a live library instance, for witnesses. -/
def sampleLive : GlobalState :=
  { initialized := true, errorListener := some 5, callbacks := sampleCallBacks }

/-- The reporter built by a successful initialization from `sampleIdle`,
for witnesses. -/
def sampleReporter : Reporter :=
  { previous_error_listener := some 7, previous_call_backs := sampleCallBacks }

/-- The global state right after a successful initialization from
`sampleIdle` with listener pointer 8, for witnesses. -/
def sampleAfterInit : GlobalState :=
  { initialized := true, errorListener := some 8, callbacks := crateCallBacks }

/-- Content-equal chip records at distinct memory locations: the prefix
pointers are 1 vs 10 and the path pointers 2 vs 20, but the bytes behind
them, the bus and the address agree. -/
def chipRecA : SensorsChipName :=
  { pfx := some { addr := 1, bytes := .utf8 "w83627" }
  , bus := { type_ := 0, nr := 0 }
  , addr := 42
  , path := some { addr := 2, bytes := .utf8 "/sys/class/hwmon" } }

/-- See `chipRecA`. -/
def chipRecB : SensorsChipName :=
  { pfx := some { addr := 10, bytes := .utf8 "w83627" }
  , bus := { type_ := 0, nr := 0 }
  , addr := 42
  , path := some { addr := 20, bytes := .utf8 "/sys/class/hwmon" } }

/-- C1: while an `LMSensors` instance is live (`INITIALIZED` is set), a
further `LMSensors::new` — the body of `Initializer::initialize()` —
returns an I/O-class error of kind `AlreadyExists`, whatever listener and
backend reply it is called with, and leaves the global state untouched;
and after the live instance is dropped, a subsequent `LMSensors::new`
whose backend `sensors_init` call succeeds (returns 0) yields `Ok`. -/
theorem lmsensors_second_init_fails_until_drop
    (s : GlobalState) (h : s.initialized = true)
    (r : ℤ) (d : String) (l : ListenerPtr) :
    LMSensors.new r d l s
      = (.error (.ioError "sensors_init()" .AlreadyExists), s)
    ∧ ∀ (inst : LMSensors) (d2 : String) (l2 : ListenerPtr),
        ∃ inst2 s2, LMSensors.new 0 d2 l2 (inst.drop s).2 = (.ok inst2, s2) := by
  constructor
  · simp [LMSensors.new, h]
  · intro inst d2 l2
    exact ⟨_, _, rfl⟩

/-- Witness for C1: in the concrete live state `sampleLive`, a second
initialization attempt returns the `AlreadyExists` error and changes
nothing. -/
theorem lmsensors_second_init_fails_until_drop_witness :
    sampleLive.initialized = true
    ∧ LMSensors.new 7 "kernel interface error" (some 9) sampleLive
      = (.error (.ioError "sensors_init()" .AlreadyExists), sampleLive) :=
  ⟨rfl, (lmsensors_second_init_fails_until_drop sampleLive rfl 7
    "kernel interface error" (some 9)).1⟩

/-- C5: `Reporter::fatal_error` delivers the decoded error text and
procedure name to the installed listener when one is installed (the
default listener otherwise), and then unconditionally terminates the
process — it never returns control to the backend and produces no `Error`
value. -/
theorem fatal_error_aborts (procedure err : Option CBytes) (s : GlobalState) :
    (Reporter.fatal_error procedure err s).2 = .aborted
    ∧ (Reporter.fatal_error procedure err s).1
      = { listener := installedListener s
        , error := lossy_string_from_c_str err "<unknown-error>"
        , procedure := (str_from_c_str procedure).getD "<unknown-procedure>" } :=
  ⟨rfl, rfl⟩

/-- C6: a successful `LMSensors::new` followed by `Drop` restores the
global error-listener slot and all three backend callback slots to exactly
the values they held before initialization. -/
theorem lmsensors_drop_restores_previous_globals
    (s s1 : GlobalState) (d : String) (l : ListenerPtr) (inst : LMSensors)
    (h : LMSensors.new 0 d l s = (.ok inst, s1)) :
    ((inst.drop s1).2).errorListener = s.errorListener
    ∧ ((inst.drop s1).2).callbacks.parse_error = s.callbacks.parse_error
    ∧ ((inst.drop s1).2).callbacks.parse_error_wfn = s.callbacks.parse_error_wfn
    ∧ ((inst.drop s1).2).callbacks.fatal_error = s.callbacks.fatal_error := by
  rcases Bool.dichotomy s.initialized with hi | hi
  · simp [LMSensors.new, hi, Reporter.new, CallBacks.replace] at h
    obtain ⟨h1, h2⟩ := h
    subst h1
    subst h2
    exact ⟨rfl, rfl, rfl, rfl⟩
  · simp [LMSensors.new, hi] at h

/-- Witness for C6: from the concrete idle state `sampleIdle`, a
successful initialization followed by `Drop` restores the listener slot
and the three callback slots. -/
theorem lmsensors_drop_restores_previous_globals_witness :
    LMSensors.new 0 "" (some 8) sampleIdle
      = (.ok (LMSensors.mk sampleReporter), sampleAfterInit)
    ∧ (((LMSensors.mk sampleReporter).drop sampleAfterInit).2).errorListener
        = sampleIdle.errorListener
    ∧ (((LMSensors.mk sampleReporter).drop sampleAfterInit).2).callbacks.parse_error
        = sampleIdle.callbacks.parse_error :=
  ⟨rfl,
   (lmsensors_drop_restores_previous_globals sampleIdle _ "" (some 8) _ rfl).1,
   (lmsensors_drop_restores_previous_globals sampleIdle _ "" (some 8) _ rfl).2.1⟩

/-- C7, counterexample: when the backend returns a null label pointer,
`FeatureRef::raw_label` fails with an I/O error of kind `InvalidInput`
(src/feature.rs line 101) — not, as the claim states, a `NotFound`-class
error. -/
theorem raw_label_null_counterexample :
    (FeatureRef.raw_label none).1
      = .error (.ioError "sensors_get_label()" .InvalidInput)
    ∧ IOErrorKind.InvalidInput ≠ IOErrorKind.NotFound :=
  ⟨rfl, by decide⟩

/-- C7, amended: when the backend returns a null pointer for a label
request, the operation fails with an I/O-class error of kind
`InvalidInput` (it never panics and never produces an empty label, and the
absent buffer is not freed); when the pointer is non-null, the label bytes
are copied into an owned string and the backend-allocated buffer is
released into the backend's allocator (`libc::free`). -/
theorem raw_label_null_fails_nonnull_freed :
    FeatureRef.raw_label none
      = (.error (.ioError "sensors_get_label()" .InvalidInput), false)
    ∧ ∀ bytes : CBytes, FeatureRef.raw_label (some bytes) = (.ok bytes, true) :=
  ⟨rfl, fun _ => rfl⟩

/-- C8, counterexample: `chipRecA` and `chipRecB` agree on address, bus,
prefix contents and path contents — the borrowed-reference comparison
returns `true` — but two *owned* `Chip`s over them compare by the derived
field-wise `PartialEq`, which compares the `prefix`/`path` pointers, and
return `false`; so equality does not hold "regardless of whether either
handle is an owned `Chip`". -/
theorem chip_eq_owned_owned_counterexample :
    (ChipRef.mk chipRecA).raw_address = (ChipRef.mk chipRecB).raw_address
    ∧ (ChipRef.mk chipRecA).bus = (ChipRef.mk chipRecB).bus
    ∧ (ChipRef.mk chipRecA).rawPfx = (ChipRef.mk chipRecB).rawPfx
    ∧ (ChipRef.mk chipRecA).raw_path = (ChipRef.mk chipRecB).raw_path
    ∧ ChipRef.eqChipRef ⟨chipRecA⟩ ⟨chipRecB⟩ = true
    ∧ Chip.derivedEq ⟨chipRecA⟩ ⟨chipRecB⟩ = false := by
  refine ⟨rfl, rfl, rfl, rfl, by decide, by decide⟩

/-- C8, amended: for any two chip records with equal address, equal bus,
equal prefix string contents and equal path string contents, the three
comparisons the crate implements (`ChipRef == ChipRef`, `Chip == ChipRef`,
`ChipRef == Chip`) return `true` regardless of where the records live in
memory; the owned/owned comparison is the derived field-wise one, which
compares the `prefix`/`path` pointers themselves and can return `false`
for content-equal records at different locations (see the
counterexample). -/
theorem chip_content_equality (a b : SensorsChipName)
    (haddr : a.addr = b.addr) (hbus : a.bus = b.bus)
    (hpfx : a.pfx.map CPtr.bytes = b.pfx.map CPtr.bytes)
    (hpath : a.path.map CPtr.bytes = b.path.map CPtr.bytes) :
    ChipRef.eqChipRef ⟨a⟩ ⟨b⟩ = true
    ∧ Chip.eqChipRef ⟨a⟩ ⟨b⟩ = true
    ∧ ChipRef.eqChip ⟨a⟩ ⟨b⟩ = true := by
  have h : ChipRef.eqChipRef ⟨a⟩ ⟨b⟩ = true := by
    simp [ChipRef.eqChipRef, ChipRef.raw_address, ChipRef.bus, ChipRef.rawPfx,
      ChipRef.raw_path, haddr, hbus, hpfx, hpath]
  exact ⟨h, h, h⟩

/-- Witness for the C8 amended theorem at the concrete records `chipRecA`,
`chipRecB`. -/
theorem chip_content_equality_witness :
    chipRecA.addr = chipRecB.addr
    ∧ chipRecA.pfx.map CPtr.bytes = chipRecB.pfx.map CPtr.bytes
    ∧ ChipRef.eqChipRef ⟨chipRecA⟩ ⟨chipRecB⟩ = true
    ∧ Chip.eqChipRef ⟨chipRecA⟩ ⟨chipRecB⟩ = true
    ∧ ChipRef.eqChip ⟨chipRecA⟩ ⟨chipRecB⟩ = true :=
  ⟨rfl, rfl,
   (chip_content_equality chipRecA chipRecB rfl rfl rfl rfl).1,
   (chip_content_equality chipRecA chipRecB rfl rfl rfl rfl).2.1,
   (chip_content_equality chipRecA chipRecB rfl rfl rfl rfl).2.2⟩

/-- C9: the `Display` implementations never fail when the underlying
name/label lookup fails — they produce a fixed placeholder string instead:
`U+FFFD` for `Chip`, `ChipRef` and `FeatureRef`, and the empty string for
`SubFeatureRef` (whose name is optional); on a successful lookup they
produce the lossy decoding of the looked-up bytes. -/
theorem displayFmt_placeholder_on_failure (e1 e2 e3 : Error) (b : CBytes) :
    Chip.displayFmt (.error e1) = "�"
    ∧ ChipRef.displayFmt (.error e2) = "�"
    ∧ FeatureRef.displayFmt (.error e3) = "�"
    ∧ SubFeatureRef.displayFmt none = ""
    ∧ Chip.displayFmt (.ok b) = b.toStringLossy :=
  ⟨rfl, rfl, rfl, rfl, rfl⟩

/-- C10: every configuration parse-error callback delivers
`max(line_no, 1)` as the line number — so a listener never observes zero —
and replaces a null error-message pointer by the `"<unknown-error>"`
placeholder; the one-argument callback delegates to the two-argument one
with a null file name. -/
theorem parse_error_line_number_clamped (err file_name : Option CBytes)
    (line_no : ℤ) (s : GlobalState) :
    (Reporter.parse_error_wfn err file_name line_no s).lineNumber
      = (max line_no 1).toNat
    ∧ 1 ≤ (Reporter.parse_error_wfn err file_name line_no s).lineNumber
    ∧ (Reporter.parse_error_wfn none file_name line_no s).error
      = "<unknown-error>"
    ∧ Reporter.parse_error err line_no s
      = Reporter.parse_error_wfn err none line_no s := by
  refine ⟨rfl, ?_, rfl, rfl⟩
  show 1 ≤ (max line_no 1).toNat
  omega

end LmSensors

section sanityChecks
/-!
Sanity checks mirroring the crate's own unit tests for
`TemperatureSensorKind::from_raw` (src/value/tests.rs, test
`temperature_sensor_kind`): `from_raw(-1.0)` is `None`, `from_raw(1000.51)`
is `Thermistor`, `from_raw(1000.49)` is `None`, `from_raw(4.49)` is
`Thermistor`, and the infinite/NaN cases.
-/

open LmSensors

example : TemperatureSensorKind.fromRaw (.fin (-1)) = none := by
  have h : roundAway (-1) = -1 := by norm_num [roundAway, Int.ceil_eq_iff]
  simp [TemperatureSensorKind.fromRaw, F64.isNan, F64.isInfinite, F64.roundToInt, h]

example : TemperatureSensorKind.fromRaw (.fin (100051/100)) = some .Thermistor := by
  have h : roundAway (100051/100) = 1001 := by norm_num [roundAway, Int.floor_eq_iff]
  simp [TemperatureSensorKind.fromRaw, F64.isNan, F64.isInfinite, F64.roundToInt, h]

example : TemperatureSensorKind.fromRaw (.fin (100049/100)) = none := by
  have h : roundAway (100049/100) = 1000 := by norm_num [roundAway, Int.floor_eq_iff]
  simp [TemperatureSensorKind.fromRaw, F64.isNan, F64.isInfinite, F64.roundToInt,
    TemperatureSensorKind.tryFrom, h]

example : TemperatureSensorKind.fromRaw (.fin (449/100)) = some .Thermistor := by
  have h : roundAway (449/100) = 4 := by norm_num [roundAway, Int.floor_eq_iff]
  simp [TemperatureSensorKind.fromRaw, F64.isNan, F64.isInfinite, F64.roundToInt,
    TemperatureSensorKind.tryFrom, h]

example : TemperatureSensorKind.fromRaw (.inf true) = some .Thermistor := by
  simp [TemperatureSensorKind.fromRaw, F64.isNan, F64.isInfinite, F64.isSignPositive]

example : TemperatureSensorKind.fromRaw (.inf false) = none := by
  simp [TemperatureSensorKind.fromRaw, F64.isNan, F64.isInfinite, F64.isSignPositive]

example : TemperatureSensorKind.fromRaw .nan = none := by
  simp [TemperatureSensorKind.fromRaw, F64.isNan]

end sanityChecks
